import Mathlib

/-!
# Verification of the lightpath device / beam-path model

Shallow embedding of the simulated device classes in
`lightpath/tests/conftest.py` (`Status`, `Valve`, `IPIMB`, `Stopper`,
`Crystal`, `MPS`) together with spec-modelled fragments of the
production `BeamPath` engine, which is imported by the tests but whose
source is not part of this repository checkout.
-/

/-- Insertion status enumeration (`Status` in the source, holding the
three named constants `inserted = 0`, `removed = 1`, `unknown = 2`). -/
inductive Status where
  | inserted
  | removed
  | unknown
  deriving DecidableEq, Repr

/-- Simulated MPS device (`MPS.__init__`): in the source the object also
holds a back reference to its device; here the device is passed to the
methods that read it.  `bypassed` is set `False` at construction and is
never consulted by `faulted`. -/
structure MPS where
  bypassed : Bool
  deriving DecidableEq, Repr

/-- Tag for the concrete device class, which determines the class
attributes `_transmission` and `_veto` (`Valve`, `IPIMB`, `Stopper`,
`Crystal`). -/
inductive DeviceClass where
  | valve
  | ipimb
  | stopper
  | crystal
  deriving DecidableEq, Repr

/-- Device state as set up by `Valve.__init__` (`name`, `z`, `beamline`,
`status`, `mps`) plus the class tag fixing the class attributes. -/
structure Valve where
  cls : DeviceClass
  name : String
  z : Rat
  beamline : String
  status : Status
  mps : Option MPS
  deriving DecidableEq, Repr

/-- Class attribute `_transmission`: `0.0` on `Valve` and inherited by
`Stopper` and `Crystal`; overridden to `0.6` on `IPIMB`. -/
def Valve.transmissionValue : DeviceClass → Rat
  | DeviceClass.ipimb => 3 / 5
  | _ => 0

/-- Class attribute `_veto`: `False` on `Valve` and inherited by `IPIMB`
and `Crystal`; overridden to `True` on `Stopper`. -/
def Valve.vetoValue : DeviceClass → Bool
  | DeviceClass.stopper => true
  | _ => false

/-- `Valve.__init__(name, z, beamline)`: stores the arguments, starts in
`Status.removed` and attaches a fresh `MPS` (whose `bypassed` is
`False`). -/
def Valve.init (cls : DeviceClass) (name : String) (z : Rat)
    (beamline : String) : Valve :=
  { cls := cls, name := name, z := z, beamline := beamline,
    status := Status.removed, mps := some { bypassed := false } }

/-- Property `Valve.transmission`: returns the class attribute
`_transmission`. -/
def Valve.transmission (d : Valve) : Rat :=
  Valve.transmissionValue d.cls

/-- Instance access `device._veto` (used by `MPS.veto_capable`). -/
def Valve.veto (d : Valve) : Bool :=
  Valve.vetoValue d.cls

/-- Property `Valve.inserted`: `self.status == Status.inserted`. -/
def Valve.inserted (d : Valve) : Bool :=
  d.status == Status.inserted

/-- Property `Valve.removed`: `self.status == Status.removed`. -/
def Valve.removed (d : Valve) : Bool :=
  d.status == Status.removed

/-- Observable steps taken by `Valve.insert` / `Valve.remove`, in
program order: the status assignment, the broadcast to the device-level
subscription channel (`_run_subs` on `SUB_DEV_CH`), and the broadcast to
the MPS subscription channel (`mps._run_subs` on `SUB_MPS_CH`). -/
inductive Event where
  | setState (s : Status)
  | notifyDevice
  | notifyMps
  deriving DecidableEq, Repr

/-- The `DeviceStatus(self, done=True, success=True)` acknowledgment
object returned by `insert` / `remove`. -/
structure DeviceStatus where
  done : Bool
  success : Bool
  deriving DecidableEq, Repr

/-- Result of one actuation call: the updated device, the trace of
observable steps in the order the source performs them, and the returned
acknowledgment. -/
structure OpResult where
  device : Valve
  events : List Event
  ack : DeviceStatus
  deriving DecidableEq, Repr

/-- `Valve.insert`: sets `status = Status.inserted`, runs the
device-level subscriptions, then — only when `self.mps` is not `None` —
runs the MPS subscriptions, and returns a completed successful
`DeviceStatus`. -/
def Valve.insert (d : Valve) : OpResult :=
  let d' : Valve := { d with status := Status.inserted }
  { device := d'
    events := [Event.setState Status.inserted, Event.notifyDevice] ++
      (if d'.mps.isSome then [Event.notifyMps] else [])
    ack := { done := true, success := true } }

/-- `Valve.remove`: sets `status = Status.removed`, runs the
device-level subscriptions, then — only when `self.mps` is not `None` —
runs the MPS subscriptions, and returns a completed successful
`DeviceStatus`. -/
def Valve.remove (d : Valve) : OpResult :=
  let d' : Valve := { d with status := Status.removed }
  { device := d'
    events := [Event.setState Status.removed, Event.notifyDevice] ++
      (if d'.mps.isSome then [Event.notifyMps] else [])
    ack := { done := true, success := true } }

/-- `MPS.veto_capable`: `self.device._veto` (the MPS object itself
contributes nothing). -/
def MPS.veto_capable (_m : MPS) (d : Valve) : Bool :=
  d.veto

/-- `MPS.faulted`: `self.device.inserted and not self.veto_capable`. -/
def MPS.faulted (m : MPS) (d : Valve) : Bool :=
  d.inserted && !(m.veto_capable d)

/-- Lift of the per-device protection model through the optional `mps`
attribute: a device reports a protection fault only via its attached
`MPS`; a device whose `mps` is `None` (a `Crystal`) has no protection
model to report one. -/
def Valve.mpsFaulted (d : Valve) : Bool :=
  match d.mps with
  | some m => m.faulted d
  | none => false

/-- `Crystal`: a `Valve` subclass whose `__init__` additionally stores
`branches = [self.beamline, branch]` and sets `mps = None`. -/
structure Crystal extends Valve where
  branches : List String
  deriving DecidableEq, Repr

/-- `Crystal.__init__(name, z, beamline, branch)`: runs
`Valve.__init__`, then sets `branches = [self.beamline, branch]` and
`mps = None`. -/
def Crystal.init (name : String) (z : Rat) (beamline branch : String) :
    Crystal :=
  let v := Valve.init DeviceClass.crystal name z beamline
  { toValve := { v with mps := none }, branches := [v.beamline, branch] }

/-- Replace a crystal's insertion status (the only field the actuation
calls mutate), to reason about an arbitrary current state. -/
def Crystal.withStatus (c : Crystal) (s : Status) : Crystal :=
  { c with toValve := { c.toValve with status := s } }

/-- Property `Crystal.destination`: `[self.branches[1]]` when inserted,
`[self.beamline]` when removed, otherwise `self.branches`.  The source
indexes `branches[1]`; every constructed crystal has exactly two
branches, so the `getD` default is never reached. -/
def Crystal.destination (c : Crystal) : List String :=
  if c.toValve.inserted then [c.branches.getD 1 c.beamline]
  else if c.toValve.removed then [c.beamline]
  else c.branches

/-- An actuation request, for reasoning about sequences of calls. -/
inductive Op where
  | ins
  | rem
  deriving DecidableEq, Repr

/-- Apply one actuation call and keep the resulting device. -/
def applyOp (d : Valve) : Op → Valve
  | Op.ins => (Valve.insert d).device
  | Op.rem => (Valve.remove d).device

/-- Apply a sequence of actuation calls left to right. -/
def applyOps (d : Valve) : List Op → Valve
  | [] => d
  | o :: os => applyOps (applyOp d o) os

/-- Modelled from the spec: the per-device transmission factor used by
`BeamPath.transmission_at` (the production `lightpath` module is not in
this checkout).  A `Removed` device contributes 1 (fully passed), an
`Inserted` device contributes `device.transmission`, and an `Unknown`
device conservatively contributes 0. -/
def transmissionFactor (d : Valve) : Rat :=
  match d.status with
  | Status.removed => 1
  | Status.inserted => d.transmission
  | Status.unknown => 0

/-- Modelled from the spec: running product of the transmission factors
of the devices strictly upstream of the query position (strictly lower
`z`); devices at or past the query position contribute nothing. -/
def transmissionProduct : List Valve → Rat → Rat
  | [], _ => 1
  | d :: ds, q =>
    (if d.z < q then transmissionFactor d else 1) * transmissionProduct ds q

/-- Modelled from the spec: detection of two devices sharing a position,
the construction-time defect `BeamPath` must reject. -/
def hasDuplicatePositions : List Valve → Bool
  | [] => false
  | d :: ds => ds.any (fun e => e.z == d.z) || hasDuplicatePositions ds

/-- Modelled from the spec: a constructed beam path — a named, fixed
membership of devices of one beamline segment.  The production path also
orders its members ascending by position; ordering is orthogonal to the
properties modelled here. -/
structure BeamPath where
  name : String
  devices : List Valve
  deriving DecidableEq, Repr

/-- Modelled from the spec: one element of the device list handed to
`BeamPath` construction — a plain device, or a declared branch point
(the fixtures mix `Valve`s and `Crystal`s in one list). -/
inductive PathDevice where
  | plain (v : Valve)
  | branching (c : Crystal)
  deriving DecidableEq, Repr

/-- The underlying device of a path-list element. -/
def PathDevice.toValve : PathDevice → Valve
  | PathDevice.plain v => v
  | PathDevice.branching c => c.toValve

/-- Modelled from the spec: the beamline identifiers reachable through
the declared branch points of a device list (each branch point declares
its own beamline and its secondary branch). -/
def branchBeamlines (ds : List PathDevice) : List String :=
  ds.flatMap (fun e =>
    match e with
    | PathDevice.branching c => c.branches
    | PathDevice.plain _ => [])

/-- Modelled from the spec: every device's beamline identifier matches
the path's declared beamline, except where crossing a declared branch
point. -/
def beamlinesOk (name : String) (ds : List PathDevice) : Bool :=
  ds.all (fun e =>
    (e.toValve.beamline == name) ||
      (branchBeamlines ds).contains e.toValve.beamline)

/-- Modelled from the spec: `BeamPath` construction validation — two
devices sharing a position is a fatal configuration defect reported as
`DuplicatePositionError`; beamline identifiers that neither match the
path's declared beamline nor cross a declared branch point are a fatal
configuration defect reported as `TopologyError`; either defect
produces no path object, otherwise construction succeeds. -/
def BeamPath.create (name : String) (ds : List PathDevice) :
    Except String BeamPath :=
  if hasDuplicatePositions (ds.map PathDevice.toValve) then
    Except.error "DuplicatePositionError"
  else if !(beamlinesOk name ds) then
    Except.error "TopologyError"
  else
    Except.ok { name := name, devices := ds.map PathDevice.toValve }

/-- Modelled from the spec: `BeamPath.transmission_at(position)` — the
product of the transmission factors of every member device strictly
upstream of `position`. -/
def BeamPath.transmission_at (p : BeamPath) (q : Rat) : Rat :=
  transmissionProduct p.devices q

/-- The explicit factor table named by the transmission claim agrees
with the source-ordered `transmissionFactor` match. -/
theorem transmissionFactor_eq_table (d : Valve) :
    transmissionFactor d =
      (if d.status = Status.removed then 1
       else if d.status = Status.inserted then d.transmission
       else 0) := by
  cases h : d.status <;> simp [transmissionFactor, h]

/-- The scan of one device's position against a list of devices comes
back clean exactly when the position is absent from the list. -/
theorem any_z_eq_false_iff (d : Valve) (ds : List Valve) :
    (ds.any (fun e => e.z == d.z) = false) ↔ d.z ∉ ds.map Valve.z := by
  rw [← Bool.not_eq_true, List.any_eq_true]
  constructor
  · intro h hmem
    rcases List.mem_map.mp hmem with ⟨e, he, hz⟩
    exact h ⟨e, he, beq_iff_eq.mpr hz⟩
  · rintro h ⟨e, he, hz⟩
    exact h (List.mem_map.mpr ⟨e, he, beq_iff_eq.mp hz⟩)

/-- Absence of duplicate positions is exactly `Nodup` of the position
list. -/
theorem hasDuplicatePositions_eq_false_iff (devices : List Valve) :
    hasDuplicatePositions devices = false ↔
      (devices.map Valve.z).Nodup := by
  induction devices with
  | nil => simp [hasDuplicatePositions]
  | cons d ds ih =>
    show (ds.any (fun e => e.z == d.z) || hasDuplicatePositions ds)
        = false ↔ _
    rw [Bool.or_eq_false_iff, ih, List.map_cons, List.nodup_cons,
      any_z_eq_false_iff]

/-- C1: for every device, the protection model reports `faulted = true`
iff the device's status is `Inserted` and it is not veto-capable
(protection-rated); every other combination of status and rating gives
`faulted = false`. -/
theorem C1_faulted_iff (m : MPS) (d : Valve) :
    m.faulted d = true ↔ (d.status = Status.inserted ∧ d.veto = false) := by
  simp [MPS.faulted, MPS.veto_capable, Valve.inserted, Bool.and_eq_true,
    beq_iff_eq, Bool.not_eq_true']

/-- C2: for a branching device with primary branch `bl` and secondary
branch `br`, `destination` is exactly `[br]` when inserted, exactly
`[bl]` when removed, and exactly `[bl, br]` when unknown. -/
theorem C2_destination (name : String) (z : Rat) (bl br : String) :
    (((Crystal.init name z bl br).withStatus Status.inserted).destination
        = [br]) ∧
    (((Crystal.init name z bl br).withStatus Status.removed).destination
        = [bl]) ∧
    (((Crystal.init name z bl br).withStatus Status.unknown).destination
        = [bl, br]) := by
  refine ⟨rfl, rfl, rfl⟩

/-- C3: for every beam path and query position, `transmission_at` equals
the product, over the member devices strictly upstream of the query
position, of the per-device factor: 1 when Removed, the device's
transmission when Inserted, and 0 when Unknown. -/
theorem C3_transmission_at (p : BeamPath) (q : Rat) :
    p.transmission_at q =
      ((p.devices.filter (fun d => decide (d.z < q))).map
        (fun d => if d.status = Status.removed then 1
                  else if d.status = Status.inserted then d.transmission
                  else 0)).prod := by
  show transmissionProduct p.devices q = _
  induction p.devices with
  | nil => rfl
  | cons d ds ih =>
    rw [transmissionProduct, ih, List.filter_cons]
    by_cases h : d.z < q
    · rw [if_pos h, if_pos (show decide (d.z < q) = true by simpa using h),
        List.map_cons, List.prod_cons, transmissionFactor_eq_table d]
    · rw [if_neg h,
        if_neg (show ¬decide (d.z < q) = true by simpa using h), one_mul]

/-- C4 counterexample: a device list with pairwise-distinct positions
on which construction nevertheless fails — the two devices sit on
beamlines that neither match the path's declared beamline nor cross a
declared branch point, so the spec's second construction-time check
rejects the list with `TopologyError`. -/
theorem C4_create_counterexample :
    ((([PathDevice.plain (Valve.init DeviceClass.valve "a" 1 "AAA"),
        PathDevice.plain (Valve.init DeviceClass.valve "b" 2 "BBB")].map
          PathDevice.toValve).map Valve.z).Nodup) ∧
    BeamPath.create "TST"
        [PathDevice.plain (Valve.init DeviceClass.valve "a" 1 "AAA"),
         PathDevice.plain (Valve.init DeviceClass.valve "b" 2 "BBB")]
      = Except.error "TopologyError" := by
  exact ⟨by decide, rfl⟩

/-- C4 (amended): two devices sharing a position make construction fail
with `DuplicatePositionError`, yielding no path object; a device list
with pairwise-distinct positions whose beamline identifiers all match
the path's declared beamline except where crossing a declared branch
point constructs successfully. -/
theorem C4_create_amended (name : String) (ds : List PathDevice) :
    (¬((ds.map PathDevice.toValve).map Valve.z).Nodup →
        BeamPath.create name ds
          = Except.error "DuplicatePositionError") ∧
    (((ds.map PathDevice.toValve).map Valve.z).Nodup →
      beamlinesOk name ds = true →
        BeamPath.create name ds
          = Except.ok { name := name,
                        devices := ds.map PathDevice.toValve }) := by
  constructor
  · intro h
    have ht : hasDuplicatePositions (ds.map PathDevice.toValve) = true := by
      rcases Bool.eq_false_or_eq_true
          (hasDuplicatePositions (ds.map PathDevice.toValve)) with ht | hf
      · exact ht
      · exact absurd
          ((hasDuplicatePositions_eq_false_iff _).mp hf) h
    simp [BeamPath.create, ht]
  · intro h hb
    have hf : hasDuplicatePositions (ds.map PathDevice.toValve) = false :=
      (hasDuplicatePositions_eq_false_iff _).mpr h
    simp [BeamPath.create, hf, hb]

/-- Witness for the amended C4 at concrete device lists: a shared
position fails, a clean single-beamline list succeeds, and a list
crossing a declared branch point onto a second beamline also
succeeds. -/
theorem C4_create_amended_witness :
    BeamPath.create "TST"
        [PathDevice.plain (Valve.init DeviceClass.valve "a" 1 "TST"),
         PathDevice.plain (Valve.init DeviceClass.stopper "b" 1 "TST")]
      = Except.error "DuplicatePositionError" ∧
    BeamPath.create "TST"
        [PathDevice.plain (Valve.init DeviceClass.valve "zero" 0 "TST"),
         PathDevice.plain (Valve.init DeviceClass.valve "one" 2 "TST")]
      = Except.ok ⟨"TST",
          [Valve.init DeviceClass.valve "zero" 0 "TST",
           Valve.init DeviceClass.valve "one" 2 "TST"]⟩ ∧
    BeamPath.create "SIM"
        [PathDevice.plain (Valve.init DeviceClass.valve "zero" 0 "TST"),
         PathDevice.branching (Crystal.init "four" 16 "TST" "SIM"),
         PathDevice.plain (Valve.init DeviceClass.valve "six" 30 "SIM")]
      = Except.ok ⟨"SIM",
          [Valve.init DeviceClass.valve "zero" 0 "TST",
           (Crystal.init "four" 16 "TST" "SIM").toValve,
           Valve.init DeviceClass.valve "six" 30 "SIM"]⟩ :=
  ⟨(C4_create_amended "TST" _).1 (by decide),
   (C4_create_amended "TST" _).2 (by decide) (by decide),
   (C4_create_amended "SIM" _).2 (by decide) (by decide)⟩

/-- C5: `insert` on an already-inserted device leaves it unchanged and
still acknowledges success; symmetrically for `remove` on an
already-removed device. -/
theorem C5_idempotent (d : Valve) :
    (d.status = Status.inserted →
      (Valve.insert d).device = d ∧
        (Valve.insert d).ack = { done := true, success := true }) ∧
    (d.status = Status.removed →
      (Valve.remove d).device = d ∧
        (Valve.remove d).ack = { done := true, success := true }) := by
  obtain ⟨cls, name, z, bl, st, mps⟩ := d
  constructor <;> rintro rfl <;> exact ⟨rfl, rfl⟩

/-- Witness for C5 at a concrete inserted valve and a concrete removed
valve. -/
theorem C5_idempotent_witness :
    (Valve.insert { Valve.init DeviceClass.valve "v" 1 "TST" with
        status := Status.inserted }).device
      = { Valve.init DeviceClass.valve "v" 1 "TST" with
          status := Status.inserted } ∧
    (Valve.remove (Valve.init DeviceClass.valve "v" 1 "TST")).device
      = Valve.init DeviceClass.valve "v" 1 "TST" :=
  ⟨((C5_idempotent { Valve.init DeviceClass.valve "v" 1 "TST" with
        status := Status.inserted }).1 rfl).1,
   ((C5_idempotent (Valve.init DeviceClass.valve "v" 1 "TST")).2 rfl).1⟩

/-- C6: from any initial state, `insert` (resp. `remove`) first sets the
status, then notifies the device-level subscribers, then the MPS-level
subscribers — the MPS broadcast happening exactly when the device
carries an MPS. -/
theorem C6_insert_remove_order (d : Valve) :
    (d.mps.isSome = true →
      (Valve.insert d).events
          = [Event.setState Status.inserted, Event.notifyDevice,
             Event.notifyMps] ∧
        (Valve.remove d).events
          = [Event.setState Status.removed, Event.notifyDevice,
             Event.notifyMps]) ∧
    (d.mps = none →
      (Valve.insert d).events
          = [Event.setState Status.inserted, Event.notifyDevice] ∧
        (Valve.remove d).events
          = [Event.setState Status.removed, Event.notifyDevice]) ∧
    (Valve.insert d).device.status = Status.inserted ∧
    (Valve.remove d).device.status = Status.removed := by
  refine ⟨fun h => ?_, fun h => ?_, rfl, rfl⟩
  · constructor <;> simp [Valve.insert, Valve.remove, h]
  · constructor <;> simp [Valve.insert, Valve.remove, h]

/-- Witness for C6: a fresh valve (which carries an MPS) broadcasts on
both channels after mutating, a crystal (no MPS) only on the device
channel. -/
theorem C6_insert_remove_order_witness :
    (Valve.insert (Valve.init DeviceClass.valve "v" 1 "TST")).events
      = [Event.setState Status.inserted, Event.notifyDevice,
         Event.notifyMps] ∧
    (Valve.insert (Crystal.init "c" 2 "TST" "SIM").toValve).events
      = [Event.setState Status.inserted, Event.notifyDevice] :=
  ⟨((C6_insert_remove_order
        (Valve.init DeviceClass.valve "v" 1 "TST")).1 rfl).1,
   ((C6_insert_remove_order
        (Crystal.init "c" 2 "TST" "SIM").toValve).2.1 rfl).1⟩

/-- One actuation call never touches the class tag, the position or the
beamline. -/
theorem applyOp_frame (d : Valve) (o : Op) :
    (applyOp d o).cls = d.cls ∧ (applyOp d o).z = d.z ∧
      (applyOp d o).beamline = d.beamline := by
  cases o <;> exact ⟨rfl, rfl, rfl⟩

/-- C7: after any sequence of `insert`/`remove` calls, a device's
transmission, position and beamline identifier are unchanged. -/
theorem C7_frame (ops : List Op) (d : Valve) :
    (applyOps d ops).transmission = d.transmission ∧
    (applyOps d ops).z = d.z ∧
    (applyOps d ops).beamline = d.beamline := by
  induction ops generalizing d with
  | nil => exact ⟨rfl, rfl, rfl⟩
  | cons o os ih =>
    have hstep : applyOps d (o :: os) = applyOps (applyOp d o) os := rfl
    rcases ih (applyOp d o) with ⟨h1, h2, h3⟩
    rcases applyOp_frame d o with ⟨g1, g2, g3⟩
    rw [hstep, h1, h2, h3]
    exact ⟨by rw [Valve.transmission, Valve.transmission, g1], g2, g3⟩

/-- C8: a constructed crystal carries no MPS in any insertion state, so
no protection model ever reports it faulted; on any device without an
MPS the actuation calls emit only the device-level notification and
still complete successfully. -/
theorem C8_crystal_no_mps (name : String) (z : Rat) (bl br : String)
    (s : Status) :
    (((Crystal.init name z bl br).withStatus s).mps = none ∧
      ((Crystal.init name z bl br).withStatus s).toValve.mpsFaulted
        = false) ∧
    ∀ d : Valve, d.mps = none →
      (Valve.insert d).events
          = [Event.setState Status.inserted, Event.notifyDevice] ∧
      (Valve.insert d).ack = { done := true, success := true } ∧
      (Valve.remove d).events
          = [Event.setState Status.removed, Event.notifyDevice] ∧
      (Valve.remove d).ack = { done := true, success := true } := by
  refine ⟨⟨rfl, rfl⟩, fun d h => ?_⟩
  refine ⟨?_, rfl, ?_, rfl⟩ <;> simp [Valve.insert, Valve.remove, h]

/-- Witness for C8 at a concrete crystal. -/
theorem C8_crystal_no_mps_witness :
    (Valve.insert
        ((Crystal.init "four" 16 "TST" "SIM").withStatus
            Status.removed).toValve).events
      = [Event.setState Status.inserted, Event.notifyDevice] :=
  ((C8_crystal_no_mps "four" 16 "TST" "SIM" Status.removed).2 _ rfl).1

/-- C9: `inserted` and `removed` are mutually exclusive, both are false
in the unknown state, and every constructed device (valve or crystal)
starts in the removed state. -/
theorem C9_state_invariants (d : Valve) :
    (d.inserted = true → d.removed = false) ∧
    (d.status = Status.unknown →
      d.inserted = false ∧ d.removed = false) ∧
    (∀ (cls : DeviceClass) (name : String) (z : Rat) (bl : String),
        (Valve.init cls name z bl).status = Status.removed) ∧
    ∀ (name : String) (z : Rat) (bl br : String),
        (Crystal.init name z bl br).status = Status.removed := by
  refine ⟨fun h => ?_, fun h => ?_, fun _ _ _ _ => rfl, fun _ _ _ _ => rfl⟩
  · have hs : d.status = Status.inserted := by
      simpa [Valve.inserted] using h
    simp [Valve.removed, hs]
  · simp [Valve.inserted, Valve.removed, h]

/-- Witness for C9 at a concrete inserted valve and a concrete
unknown-state valve. -/
theorem C9_state_invariants_witness :
    ({ Valve.init DeviceClass.valve "v" 1 "TST" with
        status := Status.inserted } : Valve).removed = false ∧
    ({ Valve.init DeviceClass.valve "w" 2 "TST" with
        status := Status.unknown } : Valve).inserted = false :=
  ⟨(C9_state_invariants { Valve.init DeviceClass.valve "v" 1 "TST" with
        status := Status.inserted }).1 rfl,
   ((C9_state_invariants { Valve.init DeviceClass.valve "w" 2 "TST" with
        status := Status.unknown }).2.1 rfl).1⟩

/-- C10: from any initial state, `insert`/`remove` return an
acknowledgment that is already done and successful, with the state
transition already applied when the call returns. -/
theorem C10_sync (d : Valve) :
    (Valve.insert d).ack.done = true ∧
    (Valve.insert d).ack.success = true ∧
    (Valve.insert d).device.status = Status.inserted ∧
    (Valve.remove d).ack.done = true ∧
    (Valve.remove d).ack.success = true ∧
    (Valve.remove d).device.status = Status.removed :=
  ⟨rfl, rfl, rfl, rfl, rfl, rfl⟩
